import Mathlib

/-!
Shallow embedding of the `mcp_remoteServer` repository
(`src/remote_client.py` and `src/sleep_advice_server.py`).

Conventions of the embedding:

* Machine time (`datetime.now().timestamp()`) is passed in as a `Nat`
  argument `now` (epoch seconds); formatted clock/date strings produced by
  `strftime` are passed in as `String` arguments, since they are opaque to
  the control flow of the code.
* Network I/O is modelled by a `Net α` value supplied to each call: an HTTP
  response with a status code and an optional parsed body (`none` models a
  payload whose expected keys are missing, which in the Python code raises
  inside the `try` block), or a transport exception.
* The async session object is omitted: it carries no data the client logic
  reads.  All methods are pure state transformers
  `ClientState → ... → Result × ClientState`.
* Python dicts returned to the caller are modelled by the `ClientResult`
  structure; keys that a given query kind does not produce are `none`.
-/

set_option autoImplicit false

namespace SleepQuotes

/-- `RemoteQuote` from `remote_client.py` (also the shape of the quote
records the client parses out of JSON payloads). -/
structure RemoteQuote where
  id : Nat
  quote : String
  author : String
  category : String
  time_of_day : String
  mood : String
deriving DecidableEq

/-- The dict a client query method returns.  Every result carries
`success`, `message` and `source`; the remaining keys exist only for some
query kinds and are `none` when the Python dict omits them.
`daily_tip = some none` models the key present with value `None`. -/
structure ClientResult where
  success : Bool
  message : String
  source : String
  quote_data : Option RemoteQuote := none
  tip_data : Option RemoteQuote := none
  results : Option (List RemoteQuote) := none
  total_found : Option Nat := none
  daily_quote : Option RemoteQuote := none
  daily_tip : Option (Option RemoteQuote) := none
  timestamp : Option String := none
deriving DecidableEq

/-- One cache slot: `self.cache[cache_key] = {'data': ..., 'timestamp': ...}`. -/
structure CacheEntry where
  data : ClientResult
  timestamp : Nat
deriving DecidableEq

/-- The mutable fields of `RemoteSleepQuotesClient` (the aiohttp session is
omitted; the cache dict is modelled as an association list with
replace-on-insert, which has exactly the lookup behaviour of a dict). -/
structure ClientState where
  server_url : String
  fallback_urls : List String
  is_connected : Bool
  cache : List (String × CacheEntry)
  cache_ttl : Nat
deriving DecidableEq

/-- An HTTP exchange as the client code observes it: either a response with
a status code and an optional parsed body (`none` = expected JSON keys
missing, raising `KeyError` inside the `try`), or a transport exception. -/
inductive Net (α : Type) where
  | response (status : Nat) (body : Option α)
  | exn
deriving DecidableEq

/-- A response that does NOT take the success path of a query method:
non-200 status, malformed payload, or transport exception. -/
def Net.isFailure {α : Type} : Net α → Bool
  | .exn => true
  | .response s b => !(s == 200 && b.isSome)

/-- Parsed body of `GET /api/quote`: `{quote: ..., timestamp: ...}`. -/
structure QuoteBody where
  quote : RemoteQuote
  timestamp : String
deriving DecidableEq

/-- Parsed body of `GET /api/tip`: `{tip: ..., timestamp: ...}`. -/
structure TipBody where
  tip : RemoteQuote
  timestamp : String
deriving DecidableEq

/-- Parsed body of `GET /api/search/{query}`. -/
structure SearchBody where
  results : List RemoteQuote
  total_found : Nat
  timestamp : String
deriving DecidableEq

/-- Parsed body of `GET /api/wisdom`; `daily_tip` is optional in the JSON. -/
structure WisdomBody where
  daily_quote : RemoteQuote
  daily_tip : Option RemoteQuote
  timestamp : String
deriving DecidableEq

/-- Rendering of a Python `Optional[str]` inside an f-string:
`None` prints as `"None"`. -/
def pyOptStr : Option String → String
  | none => "None"
  | some s => s

/-- Rendering of a Python `bool` inside an f-string. -/
def pyBoolStr (b : Bool) : String := if b then "True" else "False"

/-- `str.replace('_', ' ')` for the single-character case used here. -/
def underscoreToSpace (s : String) : String :=
  s.map (fun c => if c = '_' then ' ' else c)

/-- Helper for `pyTitle`: the boolean records whether the previous
character was alphabetic. -/
def pyTitleAux : List Char → Bool → List Char
  | [], _ => []
  | c :: cs, prevAlpha =>
    if c.isAlpha then
      (if prevAlpha then c.toLower else c.toUpper) :: pyTitleAux cs true
    else
      c :: pyTitleAux cs false

/-- Python `str.title()` (ASCII fragment, which covers every string it is
applied to in this program): the first letter of each alphabetic run is
uppercased, the rest lowercased. -/
def pyTitle (s : String) : String := ⟨pyTitleAux s.data false⟩

/-- The message template of `get_inspirational_quote` (lines 154-165 of
`remote_client.py`); `nowHM` is `datetime.now().strftime('%H:%M')`. -/
def quoteMessage (q : RemoteQuote) (nowHM : String) : String :=
  "🌙 CITA INSPIRACIONAL PARA DORMIR 🌙\n\n\"" ++ q.quote ++ "\"\n\n— "
    ++ q.author ++ "\n\n📅 Hora: " ++ nowHM
    ++ "\n🏷️  Categoría: " ++ pyTitle (underscoreToSpace q.category)
    ++ "\n💭 Estado: " ++ pyTitle q.mood
    ++ "\n⏰ Momento: " ++ pyTitle (underscoreToSpace q.time_of_day)
    ++ "\n\n✨ Que tengas dulces sueños ✨"

/-- The message template of `get_sleep_hygiene_tip` (lines 202-210). -/
def tipMessage (t : RemoteQuote) : String :=
  "💡 CONSEJO DE HIGIENE DEL SUEÑO 💡\n\n" ++ t.quote ++ "\n\n— " ++ t.author
    ++ "\n\n🎯 Esta es tu recomendación personalizada para mejorar tu calidad de sueño.\n\n"
    ++ "💤 Recuerda: Pequeños cambios en tus hábitos pueden generar grandes mejoras en tu descanso."

/-- The zero-results branch of `search_quotes` (lines 241-245). -/
def emptySearchMessage (query : String) : String :=
  "🔍 BÚSQUEDA: \"" ++ query ++ "\"\n\n"
    ++ "❌ No se encontraron citas que coincidan con tu búsqueda.\n\n"
    ++ "💡 Intenta con términos como: sueño, descanso, noche, relajación, paz"

/-- Header of the non-empty search result message (lines 247-251). -/
def searchHeader (query : String) (n : Nat) : String :=
  "🔍 RESULTADOS DE BÚSQUEDA: \"" ++ query ++ "\"\n\n"
    ++ "📚 Encontré " ++ toString n ++ " cita(s) para ti:\n\n"

/-- One enumerated item of the search result message (lines 252-257). -/
def searchItem (i : Nat) (q : RemoteQuote) : String :=
  "\n" ++ toString i ++ ". \"" ++ q.quote ++ "\"\n   — " ++ q.author
    ++ " | " ++ pyTitle (underscoreToSpace q.category) ++ "\n\n"

/-- The `message +=` loop over `enumerate(data['results'], 1)`. -/
def searchItems (l : List RemoteQuote) : String :=
  (List.enumFrom 1 l).foldl (fun acc p => acc ++ searchItem p.1 p.2) ""

/-- The message of `get_daily_wisdom` (lines 299-318); `dateStr` and
`timeStr` are the two `strftime` results.  The tip block is appended only
when `include_tip` holds AND the payload carried a `daily_tip` key. -/
def wisdomMessage (body : WisdomBody) (dateStr timeStr : String)
    (include_tip : Bool) : String :=
  let base := "📖 SABIDURÍA DIARIA DEL SUEÑO 📖\n\n📅 " ++ dateStr ++ " • "
    ++ timeStr ++ "\n\n🌟 CITA DEL DÍA:\n\"" ++ body.daily_quote.quote
    ++ "\"\n— " ++ body.daily_quote.author ++ "\n\n"
  let withTip :=
    match include_tip, body.daily_tip with
    | true, some t =>
        base ++ "💡 CONSEJO PRÁCTICO:\n" ++ t.quote
          ++ "\n\n🎯 Aplica este consejo hoy y observa cómo mejora tu descanso nocturno.\n\n"
    | _, _ => base
  withTip ++ "🌙 Que tengas un día productivo y una noche de sueño reparador. 🌙"

/-- `_get_offline_response` (lines 359-417): one fixed payload per kind,
with a catch-all default. -/
def get_offline_response (t : String) : ClientResult :=
  if t == "quote" then
    { success := false
      message := "❌ SERVIDOR REMOTO NO DISPONIBLE\n\n"
        ++ "🔌 No se pudo conectar al servidor de citas inspiracionales.\n\n"
        ++ "💡 Cita offline:\n"
        ++ "\"El sueño es la mejor inversión que puedes hacer en tu bienestar. Descansa bien esta noche.\"\n"
        ++ "— Sleep Coach Local\n\n"
        ++ "🌙 El servidor estará disponible pronto. ¡Dulces sueños!"
      source := "offline_fallback" }
  else if t == "tip" then
    { success := false
      message := "❌ SERVIDOR REMOTO NO DISPONIBLE\n\n"
        ++ "🔌 No se pudo conectar al servidor de consejos de sueño.\n\n"
        ++ "💡 Consejo offline:\n"
        ++ "\"Mantén tu habitación fresca (18-20°C), oscura y silenciosa para un sueño óptimo.\"\n\n"
        ++ "🌙 El servidor estará disponible pronto."
      source := "offline_fallback" }
  else if t == "search" then
    { success := false
      message := "❌ SERVIDOR REMOTO NO DISPONIBLE\n\n"
        ++ "🔌 No se puede realizar la búsqueda en este momento.\n\n"
        ++ "⏳ Intenta nuevamente cuando el servidor esté disponible."
      source := "offline_fallback" }
  else if t == "wisdom" then
    { success := false
      message := "❌ SERVIDOR REMOTO NO DISPONIBLE\n\n"
        ++ "🔌 No se pudo obtener la sabiduría diaria.\n\n"
        ++ "💭 Reflexión offline:\n"
        ++ "\"Cada noche es una oportunidad de descanso y renovación. Aprovecha este momento para cuidar tu bienestar.\"\n\n"
        ++ "🌙 El servidor estará disponible pronto."
      source := "offline_fallback" }
  else
    { success := false
      message := "❌ Servidor remoto no disponible"
      source := "offline_fallback" }

/-- Dict lookup on the cache (first entry with the key). -/
def cacheLookup (c : List (String × CacheEntry)) (k : String) : Option CacheEntry :=
  (c.find? (fun p => p.1 == k)).map (fun p => p.2)

/-- `_is_cache_valid` (lines 86-92): the key is present and its age is
strictly below the CURRENT `self.cache_ttl`. -/
def is_cache_valid (st : ClientState) (now : Nat) (k : String) : Bool :=
  match cacheLookup st.cache k with
  | none => false
  | some e => now - e.timestamp < st.cache_ttl

/-- `_set_cache` (lines 94-99): dict assignment, i.e. replace-on-insert. -/
def set_cache (st : ClientState) (now : Nat) (k : String) (d : ClientResult) :
    ClientState :=
  { st with cache := (k, ⟨d, now⟩) :: st.cache.filter (fun p => !(p.1 == k)) }

/-- `_get_cache` (lines 101-105). -/
def get_cache (st : ClientState) (now : Nat) (k : String) : Option ClientResult :=
  if is_cache_valid st now k then (cacheLookup st.cache k).map (fun e => e.data)
  else none

/-- The fixed fallback URL list of `__init__` (lines 37-42). -/
def fallbackUrls : List String :=
  [ "https://sleep-quotes-mcp.onrender.com"
  , "https://sleep-quotes-mcp.railway.app"
  , "https://sleep-quotes-mcp.fly.dev"
  , "http://localhost:8000" ]

/-- `__init__` (lines 29-50).  `self.server_url = server_url or
self.fallback_urls[0]`: `None` and the empty string both fall back. -/
def initClient (server_url : Option String) : ClientState :=
  { server_url :=
      match server_url with
      | some s => if s == "" then "https://sleep-quotes-mcp.onrender.com" else s
      | none => "https://sleep-quotes-mcp.onrender.com"
    fallback_urls := fallbackUrls
    is_connected := false
    cache := []
    cache_ttl := 300 }

/-- The probe loop of `test_connection` (lines 68-80), instrumented with
the list of URLs actually probed: for each URL in order, issue
`GET {url}/health`; a 200 response whose JSON carries
`status == "healthy"` wins and stops the scan; any other response or any
exception falls through to the next URL.  `healthy u = true` models a
healthy probe of `u`; every other outcome is `false`. -/
def connect_scan (urls : List String) (healthy : String → Bool) :
    Option String × List String :=
  match urls with
  | [] => (none, [])
  | u :: rest =>
    if healthy u then (some u, [u])
    else
      let r := connect_scan rest healthy
      (r.1, u :: r.2)

/-- `test_connection` (lines 66-84): scan `[self.server_url] +
self.fallback_urls`; on the first healthy URL bind `server_url` to it and
set `is_connected := true`; if none is healthy set `is_connected := false`
(leaving `server_url` as it was). -/
def test_connection (st : ClientState) (healthy : String → Bool) :
    Bool × ClientState :=
  match connect_scan (st.server_url :: st.fallback_urls) healthy with
  | (some u, _) => (true, { st with server_url := u, is_connected := true })
  | (none, _) => (false, { st with is_connected := false })

/-- The cache key of `get_inspirational_quote` (line 128):
`f"quote_{category}_{mood}_{time_based}"`. -/
def quoteCacheKey (category mood : Option String) (time_based : Bool) : String :=
  "quote_" ++ pyOptStr category ++ "_" ++ pyOptStr mood ++ "_" ++ pyBoolStr time_based

/-- The `formatted_response` dict of `get_inspirational_quote`
(lines 152-169). -/
def quoteSuccessResult (data : QuoteBody) (nowHM : String) : ClientResult :=
  { success := true
    message := quoteMessage data.quote nowHM
    source := "remote_server"
    quote_data := some data.quote
    timestamp := some data.timestamp }

/-- The `formatted_response` dict of `get_sleep_hygiene_tip`
(lines 200-214). -/
def tipSuccessResult (data : TipBody) : ClientResult :=
  { success := true
    message := tipMessage data.tip
    source := "remote_server"
    tip_data := some data.tip
    timestamp := some data.timestamp }

/-- The success dict of `search_quotes` (lines 259-266), including the
zero-results branch of the message. -/
def searchSuccessResult (query : String) (data : SearchBody) : ClientResult :=
  { success := true
    message :=
      if data.results.isEmpty then emptySearchMessage query
      else searchHeader query data.results.length ++ searchItems data.results
    source := "remote_server"
    results := some data.results
    total_found := some data.total_found
    timestamp := some data.timestamp }

/-- The `formatted_response` dict of `get_daily_wisdom` (lines 320-327). -/
def wisdomSuccessResult (data : WisdomBody) (dateStr timeStr : String)
    (include_tip : Bool) : ClientResult :=
  { success := true
    message := wisdomMessage data dateStr timeStr include_tip
    source := "remote_server"
    daily_quote := some data.daily_quote
    daily_tip := some data.daily_tip
    timestamp := some data.timestamp }

/-- `get_inspirational_quote` (lines 107-181). -/
def get_inspirational_quote (st : ClientState) (now : Nat) (nowHM : String)
    (category mood : Option String) (time_based : Bool)
    (net : Net QuoteBody) : ClientResult × ClientState :=
  if !st.is_connected then (get_offline_response "quote", st)
  else
    let cache_key := quoteCacheKey category mood time_based
    match get_cache st now cache_key with
    | some d => (d, st)
    | none =>
      match net with
      | .exn => (get_offline_response "quote", st)
      | .response status body =>
        if status == 200 then
          match body with
          | none => (get_offline_response "quote", st)
          | some data =>
            let fr := quoteSuccessResult data nowHM
            (fr, set_cache st now cache_key fr)
        else (get_offline_response "quote", st)

/-- `get_sleep_hygiene_tip` (lines 183-225); the cache key is the constant
`"sleep_tip"`. -/
def get_sleep_hygiene_tip (st : ClientState) (now : Nat)
    (net : Net TipBody) : ClientResult × ClientState :=
  if !st.is_connected then (get_offline_response "tip", st)
  else
    match get_cache st now "sleep_tip" with
    | some d => (d, st)
    | none =>
      match net with
      | .exn => (get_offline_response "tip", st)
      | .response status body =>
        if status == 200 then
          match body with
          | none => (get_offline_response "tip", st)
          | some data =>
            let fr := tipSuccessResult data
            (fr, set_cache st now "sleep_tip" fr)
        else (get_offline_response "tip", st)

/-- `search_quotes` (lines 227-272).  Note: this method touches the cache
nowhere — no key is computed, nothing is read or written.  `limit` is only
forwarded as a request parameter. -/
def search_quotes (st : ClientState) (query : String) (limit : Nat)
    (net : Net SearchBody) : ClientResult × ClientState :=
  if !st.is_connected then (get_offline_response "search", st)
  else
    match net with
    | .exn => (get_offline_response "search", st)
    | .response status body =>
      if status == 200 then
        match body with
        | none => (get_offline_response "search", st)
        | some data => (searchSuccessResult query data, st)
      else (get_offline_response "search", st)

/-- The cache key of `get_daily_wisdom` (line 280); `dayStr` is
`datetime.now().strftime('%Y-%m-%d')`. -/
def wisdomCacheKey (dayStr : String) (include_tip : Bool) : String :=
  "daily_wisdom_" ++ dayStr ++ "_" ++ pyBoolStr include_tip

/-- `get_daily_wisdom` (lines 274-340).  On success the code sets
`self.cache_ttl = 3600`, writes the cache entry, then sets
`self.cache_ttl = 300` (the literal, not the previous value). -/
def get_daily_wisdom (st : ClientState) (now : Nat)
    (dayStr dateStr timeStr : String) (include_tip : Bool)
    (net : Net WisdomBody) : ClientResult × ClientState :=
  if !st.is_connected then (get_offline_response "wisdom", st)
  else
    let cache_key := wisdomCacheKey dayStr include_tip
    match get_cache st now cache_key with
    | some d => (d, st)
    | none =>
      match net with
      | .exn => (get_offline_response "wisdom", st)
      | .response status body =>
        if status == 200 then
          match body with
          | none => (get_offline_response "wisdom", st)
          | some data =>
            let fr := wisdomSuccessResult data dateStr timeStr include_tip
            let st1 := { st with cache_ttl := 3600 }
            let st2 := set_cache st1 now cache_key fr
            let st3 := { st2 with cache_ttl := 300 }
            (fr, st3)
        else (get_offline_response "wisdom", st)

/-! ### Server side: `sleep_advice_server.py` -/

/-- `SleepQuote` from `sleep_advice_server.py` (same fields as the
client-side record). -/
structure SleepQuote where
  id : Nat
  quote : String
  author : String
  category : String
  time_of_day : String
  mood : String
deriving DecidableEq

/-- `SleepQuotesDatabase._initialize_quotes` (lines 47-179): the fifteen
hard-coded records. -/
def initialize_quotes : List SleepQuote :=
  [ ⟨1, "Cada noche es una oportunidad para que tu mente y cuerpo se regeneren completamente.",
      "Dr. Sleep Coach", "sleep_hygiene", "night", "peaceful"⟩
  , ⟨2, "El sueño es la mejor meditación que existe. Entrégate a él con gratitud.",
      "Dalai Lama", "mindfulness", "night", "calm"⟩
  , ⟨3, "Tu cerebro trabaja toda la noche organizando los recuerdos del día. Dale el descanso que merece.",
      "Neuroscience Today", "science", "night", "educational"⟩
  , ⟨4, "Desconecta los dispositivos, conecta con tus sueños.",
      "Sleep Expert", "sleep_hygiene", "evening", "motivational"⟩
  , ⟨5, "El sueño es el momento en que tu cuerpo repara, tu mente procesa y tu alma descansa.",
      "Wellness Guru", "holistic", "night", "peaceful"⟩
  , ⟨6, "Cada amanecer es una nueva página en blanco. ¿Cómo la vas a escribir hoy?",
      "Morning Wisdom", "motivation", "morning", "motivational"⟩
  , ⟨7, "Un buen día comienza con una noche de sueño reparador. Tu cuerpo te lo agradece.",
      "Health Coach", "wellness", "morning", "calm"⟩
  , ⟨8, "El sol sale para recordarte que cada día es una nueva oportunidad de brillar.",
      "Sun Wisdom", "inspiration", "morning", "motivational"⟩
  , ⟨9, "A medida que el día llega a su fin, permite que tu mente también encuentre paz.",
      "Evening Reflection", "mindfulness", "evening", "reflective"⟩
  , ⟨10, "Una habitación oscura, fresca y silenciosa es el templo sagrado del sueño reparador.",
      "Sleep Environment Expert", "sleep_hygiene", "evening", "educational"⟩
  , ⟨11, "La cafeína permanece en tu sistema hasta 8 horas. Planifica tu última taza sabiamente.",
      "Sleep Science", "sleep_hygiene", "evening", "educational"⟩
  , ⟨12, "Tu cama es solo para dormir y relajarte. Mantenla como un santuario de descanso.",
      "Sleep Hygiene Pro", "sleep_hygiene", "evening", "motivational"⟩
  , ⟨13, "Respirar profundamente por 4 segundos, mantener por 7, exhalar por 8. La técnica 4-7-8 para el sueño.",
      "Dr. Andrew Weil", "techniques", "night", "calm"⟩
  , ⟨14, "La luz azul de las pantallas confunde a tu cerebro. Dale una hora de descanso antes de dormir.",
      "Circadian Rhythm Expert", "sleep_hygiene", "evening", "educational"⟩
  , ⟨15, "Dormir no es tiempo perdido, es inversión en tu salud, productividad y felicidad del mañana.",
      "Productivity Coach", "motivation", "night", "motivational"⟩ ]

/-- The filter loop of `get_random_quote` (lines 185-187): only the keys
`category`, `time_of_day` and `mood` are applied, each as an equality
filter; keyword-argument order cannot change the resulting set, so the
three optional filters are applied in a fixed order. -/
def applyFilters (quotes : List SleepQuote)
    (category time_of_day mood : Option String) : List SleepQuote :=
  let f1 := match category with
    | some v => quotes.filter (fun q => q.category == v)
    | none => quotes
  let f2 := match time_of_day with
    | some v => f1.filter (fun q => q.time_of_day == v)
    | none => f1
  match mood with
  | some v => f2.filter (fun q => q.mood == v)
  | none => f2

/-- `random.choice`, with the random draw supplied as the index `k`: on a
non-empty list it returns element `k % length`; on an empty list Python
raises `IndexError`, modelled by `none`. -/
def randomChoice {α : Type} (l : List α) (k : Nat) : Option α :=
  l.get? (k % l.length)

/-- `SleepQuotesDatabase.get_random_quote` (lines 181-192): filter, fall
back to the full list when the filtered list is empty, then pick at
random. -/
def get_random_quote (quotes : List SleepQuote)
    (category time_of_day mood : Option String) (k : Nat) : Option SleepQuote :=
  let filtered := applyFilters quotes category time_of_day mood
  let pool := if filtered.isEmpty then quotes else filtered
  randomChoice pool k

/-- The hour partition of `get_quote_by_time` (lines 196-203). -/
def timeFilterFor (hour : Nat) : String :=
  if 6 ≤ hour ∧ hour < 18 then "morning"
  else if 18 ≤ hour ∧ hour < 22 then "evening"
  else "night"

/-- `SleepQuotesDatabase.get_quote_by_time` (lines 194-205): select with
only the `time_of_day` filter derived from the current hour. -/
def get_quote_by_time (quotes : List SleepQuote) (hour : Nat) (k : Nat) :
    Option SleepQuote :=
  get_random_quote quotes none (some (timeFilterFor hour)) none k

/-- `SleepQuotesDatabase.get_sleep_tip` (lines 207-209). -/
def get_sleep_tip (quotes : List SleepQuote) (k : Nat) : Option SleepQuote :=
  get_random_quote quotes (some "sleep_hygiene") none none k

/-! ### Derived notions used by the verification -/

/-- The implicit invariant of every dict a query method returns:
`success` is `true` exactly when `source` is `"remote_server"`, and
`false` exactly when `source` is `"offline_fallback"`.  (That every result
carries the three fields `success`, `message`, `source` is enforced
structurally by the `ClientResult` type.) -/
def resultInv (r : ClientResult) : Prop :=
  (r.success = true ↔ r.source = "remote_server") ∧
  (r.success = false ↔ r.source = "offline_fallback")

/-- Every entry stored in the cache satisfies `resultInv`. -/
def cacheInv (st : ClientState) : Prop :=
  ∀ p ∈ st.cache, resultInv p.2.data

/-- A connected client with an empty cache, used for concrete runs. -/
def demoState : ClientState :=
  { server_url := "https://sleep-quotes-mcp.onrender.com"
    fallback_urls := fallbackUrls
    is_connected := true
    cache := []
    cache_ttl := 300 }

/-- A concrete quote record for concrete runs. -/
def demoQuoteA : RemoteQuote :=
  ⟨2, "El sueño es la mejor meditación que existe.", "Dalai Lama",
    "mindfulness", "night", "calm"⟩

/-- A second, different quote record for concrete runs. -/
def demoQuoteB : RemoteQuote :=
  ⟨4, "Desconecta los dispositivos, conecta con tus sueños.", "Sleep Expert",
    "sleep_hygiene", "evening", "motivational"⟩

/-- A concrete wisdom payload. -/
def demoWisdomA : WisdomBody := ⟨demoQuoteA, none, "tsA"⟩

/-- A second, different wisdom payload. -/
def demoWisdomB : WisdomBody := ⟨demoQuoteB, none, "tsB"⟩

/-! ### Basic lemmas about the cache and the discovery scan -/

theorem cacheLookup_cons_self (c : List (String × CacheEntry)) (k : String)
    (e : CacheEntry) : cacheLookup ((k, e) :: c) k = some e := by
  simp [cacheLookup, List.find?]

theorem get_cache_hit_of (st : ClientState) (now : Nat) (k : String)
    (e : CacheEntry) (hl : cacheLookup st.cache k = some e)
    (hv : now - e.timestamp < st.cache_ttl) :
    get_cache st now k = some e.data := by
  simp [get_cache, is_cache_valid, hl, hv]

theorem set_cache_lookup_self (st : ClientState) (now : Nat) (k : String)
    (d : ClientResult) :
    cacheLookup (set_cache st now k d).cache k = some ⟨d, now⟩ := by
  simp [set_cache, cacheLookup_cons_self]

theorem connect_scan_fst (urls : List String) (healthy : String → Bool) :
    (connect_scan urls healthy).1 = urls.find? healthy := by
  induction urls with
  | nil => simp [connect_scan]
  | cons u rest ih =>
    by_cases hu : healthy u
    · simp [connect_scan, hu, List.find?]
    · simp [connect_scan, hu, List.find?, ih]

theorem connect_scan_snd (urls : List String) (healthy : String → Bool) :
    (connect_scan urls healthy).2
      = urls.takeWhile (fun u => !healthy u)
          ++ ((urls.dropWhile (fun u => !healthy u)).take 1) := by
  induction urls with
  | nil => simp [connect_scan]
  | cons u rest ih =>
    by_cases hu : healthy u
    · simp [connect_scan, hu, List.takeWhile, List.dropWhile]
    · simp [connect_scan, hu, List.takeWhile, List.dropWhile, ih]

theorem connect_scan_probes_sublist (urls : List String)
    (healthy : String → Bool) :
    List.Sublist (connect_scan urls healthy).2 urls := by
  rw [connect_scan_snd]
  have h1 : List.Sublist
      (urls.takeWhile (fun u => !healthy u)
        ++ ((urls.dropWhile (fun u => !healthy u)).take 1))
      (urls.takeWhile (fun u => !healthy u)
        ++ urls.dropWhile (fun u => !healthy u)) :=
    (List.Sublist.refl _).append (List.take_sublist _ _)
  simpa [List.takeWhile_append_dropWhile] using h1

theorem connect_scan_all_fail (urls : List String) (healthy : String → Bool)
    (hall : ∀ u ∈ urls, healthy u = false) :
    connect_scan urls healthy = (none, urls) := by
  induction urls with
  | nil => simp [connect_scan]
  | cons u rest ih =>
    have hu : healthy u = false := hall u (by simp)
    have := ih (fun v hv => hall v (by simp [hv]))
    simp [connect_scan, hu, this]

/-! ### Execution lemmas for the four query methods -/

section RunLemmas

variable (st : ClientState) (now : Nat) (nowHM : String)
variable (category mood : Option String) (time_based : Bool)
variable (query : String) (limit : Nat)
variable (dayStr dateStr timeStr : String) (include_tip : Bool)

theorem quote_run_disconnected (net : Net QuoteBody)
    (h : st.is_connected = false) :
    get_inspirational_quote st now nowHM category mood time_based net
      = (get_offline_response "quote", st) := by
  simp [get_inspirational_quote, h]

theorem tip_run_disconnected (net : Net TipBody) (h : st.is_connected = false) :
    get_sleep_hygiene_tip st now net = (get_offline_response "tip", st) := by
  simp [get_sleep_hygiene_tip, h]

theorem search_run_disconnected (net : Net SearchBody)
    (h : st.is_connected = false) :
    search_quotes st query limit net = (get_offline_response "search", st) := by
  simp [search_quotes, h]

theorem wisdom_run_disconnected (net : Net WisdomBody)
    (h : st.is_connected = false) :
    get_daily_wisdom st now dayStr dateStr timeStr include_tip net
      = (get_offline_response "wisdom", st) := by
  simp [get_daily_wisdom, h]

theorem quote_run_hit (net : Net QuoteBody) (d : ClientResult)
    (hconn : st.is_connected = true)
    (hhit : get_cache st now (quoteCacheKey category mood time_based) = some d) :
    get_inspirational_quote st now nowHM category mood time_based net = (d, st) := by
  simp [get_inspirational_quote, hconn, hhit]

theorem tip_run_hit (net : Net TipBody) (d : ClientResult)
    (hconn : st.is_connected = true)
    (hhit : get_cache st now "sleep_tip" = some d) :
    get_sleep_hygiene_tip st now net = (d, st) := by
  simp [get_sleep_hygiene_tip, hconn, hhit]

theorem wisdom_run_hit (net : Net WisdomBody) (d : ClientResult)
    (hconn : st.is_connected = true)
    (hhit : get_cache st now (wisdomCacheKey dayStr include_tip) = some d) :
    get_daily_wisdom st now dayStr dateStr timeStr include_tip net = (d, st) := by
  simp [get_daily_wisdom, hconn, hhit]

theorem quote_run_success (data : QuoteBody)
    (hconn : st.is_connected = true)
    (hmiss : get_cache st now (quoteCacheKey category mood time_based) = none) :
    get_inspirational_quote st now nowHM category mood time_based
        (.response 200 (some data))
      = (quoteSuccessResult data nowHM,
         set_cache st now (quoteCacheKey category mood time_based)
           (quoteSuccessResult data nowHM)) := by
  simp [get_inspirational_quote, hconn, hmiss]

theorem tip_run_success (data : TipBody)
    (hconn : st.is_connected = true)
    (hmiss : get_cache st now "sleep_tip" = none) :
    get_sleep_hygiene_tip st now (.response 200 (some data))
      = (tipSuccessResult data, set_cache st now "sleep_tip" (tipSuccessResult data)) := by
  simp [get_sleep_hygiene_tip, hconn, hmiss]

theorem search_run_success (data : SearchBody)
    (hconn : st.is_connected = true) :
    search_quotes st query limit (.response 200 (some data))
      = (searchSuccessResult query data, st) := by
  simp [search_quotes, hconn]

theorem wisdom_run_success (data : WisdomBody)
    (hconn : st.is_connected = true)
    (hmiss : get_cache st now (wisdomCacheKey dayStr include_tip) = none) :
    get_daily_wisdom st now dayStr dateStr timeStr include_tip
        (.response 200 (some data))
      = (wisdomSuccessResult data dateStr timeStr include_tip,
         { set_cache { st with cache_ttl := 3600 } now
             (wisdomCacheKey dayStr include_tip)
             (wisdomSuccessResult data dateStr timeStr include_tip) with
           cache_ttl := 300 }) := by
  simp [get_daily_wisdom, hconn, hmiss]

theorem quote_run_failure (net : Net QuoteBody)
    (hconn : st.is_connected = true)
    (hmiss : get_cache st now (quoteCacheKey category mood time_based) = none)
    (hf : net.isFailure = true) :
    get_inspirational_quote st now nowHM category mood time_based net
      = (get_offline_response "quote", st) := by
  cases net with
  | exn => simp [get_inspirational_quote, hconn, hmiss]
  | response s b =>
    simp [Net.isFailure] at hf
    by_cases hs : (s == 200) = true
    · have hb : b = none := by
        cases b with
        | none => rfl
        | some x =>
          have hs200 : s = 200 := by simpa using hs
          simp [hs200] at hf
      subst hb
      simp [get_inspirational_quote, hconn, hmiss, hs]
    · simp [get_inspirational_quote, hconn, hmiss, hs]

theorem tip_run_failure (net : Net TipBody)
    (hconn : st.is_connected = true)
    (hmiss : get_cache st now "sleep_tip" = none)
    (hf : net.isFailure = true) :
    get_sleep_hygiene_tip st now net = (get_offline_response "tip", st) := by
  cases net with
  | exn => simp [get_sleep_hygiene_tip, hconn, hmiss]
  | response s b =>
    simp [Net.isFailure] at hf
    by_cases hs : (s == 200) = true
    · have hb : b = none := by
        cases b with
        | none => rfl
        | some x =>
          have hs200 : s = 200 := by simpa using hs
          simp [hs200] at hf
      subst hb
      simp [get_sleep_hygiene_tip, hconn, hmiss, hs]
    · simp [get_sleep_hygiene_tip, hconn, hmiss, hs]

theorem search_run_failure (net : Net SearchBody)
    (hconn : st.is_connected = true) (hf : net.isFailure = true) :
    search_quotes st query limit net = (get_offline_response "search", st) := by
  cases net with
  | exn => simp [search_quotes, hconn]
  | response s b =>
    simp [Net.isFailure] at hf
    by_cases hs : (s == 200) = true
    · have hb : b = none := by
        cases b with
        | none => rfl
        | some x =>
          have hs200 : s = 200 := by simpa using hs
          simp [hs200] at hf
      subst hb
      simp [search_quotes, hconn, hs]
    · simp [search_quotes, hconn, hs]

theorem wisdom_run_failure (net : Net WisdomBody)
    (hconn : st.is_connected = true)
    (hmiss : get_cache st now (wisdomCacheKey dayStr include_tip) = none)
    (hf : net.isFailure = true) :
    get_daily_wisdom st now dayStr dateStr timeStr include_tip net
      = (get_offline_response "wisdom", st) := by
  cases net with
  | exn => simp [get_daily_wisdom, hconn, hmiss]
  | response s b =>
    simp [Net.isFailure] at hf
    by_cases hs : (s == 200) = true
    · have hb : b = none := by
        cases b with
        | none => rfl
        | some x =>
          have hs200 : s = 200 := by simpa using hs
          simp [hs200] at hf
      subst hb
      simp [get_daily_wisdom, hconn, hmiss, hs]
    · simp [get_daily_wisdom, hconn, hmiss, hs]

/-- `search_quotes` never changes the client state (in particular it never
writes the cache), on every path. -/
theorem search_run_state_unchanged (net : Net SearchBody) :
    (search_quotes st query limit net).2 = st := by
  unfold search_quotes
  by_cases hc : st.is_connected
  · cases net with
    | exn => simp [hc]
    | response s b =>
      by_cases hs : (s == 200) = true
      · cases b with
        | none => simp [hc, hs]
        | some data => simp [hc, hs]
      · simp [hc, hs]
  · simp [hc]

end RunLemmas

/-! ### The success/source invariant -/

theorem resultInv_offline (t : String) : resultInv (get_offline_response t) := by
  unfold resultInv get_offline_response
  repeat' split
  all_goals exact ⟨by decide, by decide⟩

theorem resultInv_quoteSuccess (data : QuoteBody) (nowHM : String) :
    resultInv (quoteSuccessResult data nowHM) := by
  exact ⟨by simp [quoteSuccessResult], by simp [quoteSuccessResult]⟩

theorem resultInv_tipSuccess (data : TipBody) :
    resultInv (tipSuccessResult data) := by
  exact ⟨by simp [tipSuccessResult], by simp [tipSuccessResult]⟩

theorem resultInv_searchSuccess (query : String) (data : SearchBody) :
    resultInv (searchSuccessResult query data) := by
  exact ⟨by simp [searchSuccessResult], by simp [searchSuccessResult]⟩

theorem resultInv_wisdomSuccess (data : WisdomBody) (dateStr timeStr : String)
    (include_tip : Bool) :
    resultInv (wisdomSuccessResult data dateStr timeStr include_tip) := by
  exact ⟨by simp [wisdomSuccessResult], by simp [wisdomSuccessResult]⟩

theorem cacheInv_set_cache (st : ClientState) (now : Nat) (k : String)
    (d : ClientResult) (hst : cacheInv st) (hd : resultInv d) :
    cacheInv (set_cache st now k d) := by
  intro p hp
  rcases List.mem_cons.mp hp with rfl | hp
  · exact hd
  · exact hst p (List.mem_of_mem_filter hp)

theorem cacheInv_ttl (st : ClientState) (ttl : Nat) (hst : cacheInv st) :
    cacheInv { st with cache_ttl := ttl } := hst

theorem resultInv_of_get_cache (st : ClientState) (now : Nat) (k : String)
    (d : ClientResult) (hst : cacheInv st) (h : get_cache st now k = some d) :
    resultInv d := by
  unfold get_cache at h
  split at h
  · unfold cacheLookup at h
    cases hf : st.cache.find? (fun p => p.1 == k) with
    | none => rw [hf] at h; simp at h
    | some p =>
      rw [hf] at h
      simp at h
      subst h
      exact hst p (List.mem_of_find?_eq_some hf)
  · simp at h

theorem randomChoice_mem {α : Type} (l : List α) (k : Nat) (h : l ≠ []) :
    ∃ a, randomChoice l k = some a ∧ a ∈ l := by
  have hlen : 0 < l.length := List.length_pos.mpr h
  have hk : k % l.length < l.length := Nat.mod_lt _ hlen
  refine ⟨l.get ⟨k % l.length, hk⟩, ?_, List.get_mem _ _ _⟩
  simp [randomChoice, List.get?_eq_get hk]

/-- A network outcome is either the recognized success shape or a failure. -/
theorem net_success_or_failure {α : Type} (net : Net α) :
    (∃ a, net = .response 200 (some a)) ∨ net.isFailure = true := by
  cases net with
  | exn => right; rfl
  | response s b =>
    by_cases hs : s = 200
    · cases b with
      | some a => left; exact ⟨a, by rw [hs]⟩
      | none => right; simp [Net.isFailure]
    · right; simp [Net.isFailure, hs]

theorem quote_inv_step (st : ClientState) (now : Nat) (nowHM : String)
    (category mood : Option String) (time_based : Bool) (net : Net QuoteBody)
    (hst : cacheInv st) :
    resultInv (get_inspirational_quote st now nowHM category mood time_based net).1 ∧
    cacheInv (get_inspirational_quote st now nowHM category mood time_based net).2 := by
  by_cases hc : st.is_connected = true
  · cases hq : get_cache st now (quoteCacheKey category mood time_based) with
    | some d =>
      rw [quote_run_hit st now nowHM category mood time_based net d hc hq]
      exact ⟨resultInv_of_get_cache st now _ d hst hq, hst⟩
    | none =>
      rcases net_success_or_failure net with ⟨a, rfl⟩ | hf
      · rw [quote_run_success st now nowHM category mood time_based a hc hq]
        exact ⟨resultInv_quoteSuccess a nowHM,
          cacheInv_set_cache st now _ _ hst (resultInv_quoteSuccess a nowHM)⟩
      · rw [quote_run_failure st now nowHM category mood time_based net hc hq hf]
        exact ⟨resultInv_offline _, hst⟩
  · have hc2 : st.is_connected = false := by simpa using hc
    rw [quote_run_disconnected st now nowHM category mood time_based net hc2]
    exact ⟨resultInv_offline _, hst⟩

theorem tip_inv_step (st : ClientState) (now : Nat) (net : Net TipBody)
    (hst : cacheInv st) :
    resultInv (get_sleep_hygiene_tip st now net).1 ∧
    cacheInv (get_sleep_hygiene_tip st now net).2 := by
  by_cases hc : st.is_connected = true
  · cases hq : get_cache st now "sleep_tip" with
    | some d =>
      rw [tip_run_hit st now net d hc hq]
      exact ⟨resultInv_of_get_cache st now _ d hst hq, hst⟩
    | none =>
      rcases net_success_or_failure net with ⟨a, rfl⟩ | hf
      · rw [tip_run_success st now a hc hq]
        exact ⟨resultInv_tipSuccess a,
          cacheInv_set_cache st now _ _ hst (resultInv_tipSuccess a)⟩
      · rw [tip_run_failure st now net hc hq hf]
        exact ⟨resultInv_offline _, hst⟩
  · have hc2 : st.is_connected = false := by simpa using hc
    rw [tip_run_disconnected st now net hc2]
    exact ⟨resultInv_offline _, hst⟩

theorem search_inv_step (st : ClientState) (query : String) (limit : Nat)
    (net : Net SearchBody) (hst : cacheInv st) :
    resultInv (search_quotes st query limit net).1 ∧
    cacheInv (search_quotes st query limit net).2 := by
  by_cases hc : st.is_connected = true
  · rcases net_success_or_failure net with ⟨a, rfl⟩ | hf
    · rw [search_run_success st query limit a hc]
      exact ⟨resultInv_searchSuccess query a, hst⟩
    · rw [search_run_failure st query limit net hc hf]
      exact ⟨resultInv_offline _, hst⟩
  · have hc2 : st.is_connected = false := by simpa using hc
    rw [search_run_disconnected st query limit net hc2]
    exact ⟨resultInv_offline _, hst⟩

theorem wisdom_inv_step (st : ClientState) (now : Nat)
    (dayStr dateStr timeStr : String) (include_tip : Bool) (net : Net WisdomBody)
    (hst : cacheInv st) :
    resultInv (get_daily_wisdom st now dayStr dateStr timeStr include_tip net).1 ∧
    cacheInv (get_daily_wisdom st now dayStr dateStr timeStr include_tip net).2 := by
  by_cases hc : st.is_connected = true
  · cases hq : get_cache st now (wisdomCacheKey dayStr include_tip) with
    | some d =>
      rw [wisdom_run_hit st now dayStr dateStr timeStr include_tip net d hc hq]
      exact ⟨resultInv_of_get_cache st now _ d hst hq, hst⟩
    | none =>
      rcases net_success_or_failure net with ⟨a, rfl⟩ | hf
      · rw [wisdom_run_success st now dayStr dateStr timeStr include_tip a hc hq]
        refine ⟨resultInv_wisdomSuccess a dateStr timeStr include_tip, ?_⟩
        exact cacheInv_set_cache { st with cache_ttl := 3600 } now _ _ hst
          (resultInv_wisdomSuccess a dateStr timeStr include_tip)
      · rw [wisdom_run_failure st now dayStr dateStr timeStr include_tip net hc hq hf]
        exact ⟨resultInv_offline _, hst⟩
  · have hc2 : st.is_connected = false := by simpa using hc
    rw [wisdom_run_disconnected st now dayStr dateStr timeStr include_tip net hc2]
    exact ⟨resultInv_offline _, hst⟩

/-! ### Claim theorems -/

/-- C9: Invariant on every value returned by the four client query
methods (`get_inspirational_quote`, `get_sleep_hygiene_tip`,
`search_quotes`, `get_daily_wisdom`): the result's `success` field is
`true` iff its `source` field is `"remote_server"`, and `success` is
`false` iff `source` is `"offline_fallback"`; every returned dict carries
`success`, `message` and `source` (structurally guaranteed by
`ClientResult`).  Stated as a preserved invariant: it holds for any state
whose cache entries satisfy it (in particular any state reachable from a
fresh client, whose cache starts empty), and each call preserves that
cache condition. -/
theorem C9_success_source_invariant
    (st : ClientState) (now : Nat) (nowHM : String)
    (category mood : Option String) (time_based : Bool) (netQ : Net QuoteBody)
    (netT : Net TipBody) (query : String) (limit : Nat) (netS : Net SearchBody)
    (dayStr dateStr timeStr : String) (include_tip : Bool) (netW : Net WisdomBody)
    (hst : cacheInv st) :
    (resultInv (get_inspirational_quote st now nowHM category mood time_based netQ).1 ∧
      cacheInv (get_inspirational_quote st now nowHM category mood time_based netQ).2) ∧
    (resultInv (get_sleep_hygiene_tip st now netT).1 ∧
      cacheInv (get_sleep_hygiene_tip st now netT).2) ∧
    (resultInv (search_quotes st query limit netS).1 ∧
      cacheInv (search_quotes st query limit netS).2) ∧
    (resultInv (get_daily_wisdom st now dayStr dateStr timeStr include_tip netW).1 ∧
      cacheInv (get_daily_wisdom st now dayStr dateStr timeStr include_tip netW).2) :=
  ⟨quote_inv_step st now nowHM category mood time_based netQ hst,
   tip_inv_step st now netT hst,
   search_inv_step st query limit netS hst,
   wisdom_inv_step st now dayStr dateStr timeStr include_tip netW hst⟩

/-- Witness for C9: the invariant evaluated on a concrete connected state
with an empty cache and a concrete successful response. -/
theorem C9_success_source_invariant_witness :
    resultInv (get_inspirational_quote demoState 0 "22:00" none none false
        (.response 200 (some ⟨demoQuoteA, "ts"⟩))).1 :=
  (C9_success_source_invariant demoState 0 "22:00" none none false
      (.response 200 (some ⟨demoQuoteA, "ts"⟩)) .exn "paz" 5 .exn
      "2026-10-12" "domingo, 12 de octubre" "10:00" true .exn
      (by intro p hp; simp [demoState] at hp)).1.1

/-- C5: when no candidate URL answers the health probe with a healthy
signal, discovery (`test_connection`) returns `false` and sets
`is_connected := false`, and on the resulting state each of the four
query methods returns its kind's static offline payload with the state
unchanged — for EVERY possible network outcome, i.e. the result does not
depend on the network at all, which is how the embedding expresses that
no network request is issued. -/
theorem C5_offline_fallback_when_no_server
    (st : ClientState) (healthy : String → Bool)
    (hall : ∀ u ∈ st.server_url :: st.fallback_urls, healthy u = false) :
    (test_connection st healthy).1 = false ∧
    (test_connection st healthy).2.is_connected = false ∧
    (∀ now nowHM category mood time_based netQ,
      get_inspirational_quote (test_connection st healthy).2 now nowHM
          category mood time_based netQ
        = (get_offline_response "quote", (test_connection st healthy).2)) ∧
    (∀ now netT, get_sleep_hygiene_tip (test_connection st healthy).2 now netT
        = (get_offline_response "tip", (test_connection st healthy).2)) ∧
    (∀ query limit netS, search_quotes (test_connection st healthy).2 query limit netS
        = (get_offline_response "search", (test_connection st healthy).2)) ∧
    (∀ now dayStr dateStr timeStr include_tip netW,
      get_daily_wisdom (test_connection st healthy).2 now dayStr dateStr
          timeStr include_tip netW
        = (get_offline_response "wisdom", (test_connection st healthy).2)) := by
  have hscan := connect_scan_all_fail (st.server_url :: st.fallback_urls) healthy hall
  have htc : test_connection st healthy = (false, { st with is_connected := false }) := by
    unfold test_connection
    rw [hscan]
  rw [htc]
  refine ⟨rfl, rfl, ?_, ?_, ?_, ?_⟩
  · intro now nowHM category mood time_based netQ
    exact quote_run_disconnected _ now nowHM category mood time_based netQ rfl
  · intro now netT
    exact tip_run_disconnected _ now netT rfl
  · intro query limit netS
    exact search_run_disconnected _ query limit netS rfl
  · intro now dayStr dateStr timeStr include_tip netW
    exact wisdom_run_disconnected _ now dayStr dateStr timeStr include_tip netW rfl

/-- Witness for C5: a fresh client whose probes all fail ends up
disconnected and serves the offline quote payload. -/
theorem C5_offline_fallback_when_no_server_witness :
    (test_connection (initClient none) (fun _ => false)).2.is_connected = false ∧
    (test_connection (initClient none) (fun _ => false)).2.cache = [] ∧
    get_inspirational_quote (test_connection (initClient none) (fun _ => false)).2
        0 "22:00" none none false .exn
      = (get_offline_response "quote",
         (test_connection (initClient none) (fun _ => false)).2) := by
  have h := C5_offline_fallback_when_no_server (initClient none) (fun _ => false)
    (fun u _ => rfl)
  exact ⟨h.2.1, rfl, h.2.2.1 0 "22:00" none none false .exn⟩

/-- C6: for every query kind, on any failure of the remote request
(non-200 status, transport exception, or malformed payload) the method
returns the kind's static offline payload (`success := false`) and leaves
the state — in particular the cache map — unchanged.  No fault is raised:
the methods are total functions into `ClientResult × ClientState`. -/
theorem C6_failures_swallowed_nothing_cached
    (st : ClientState) (now : Nat) (nowHM : String)
    (category mood : Option String) (time_based : Bool)
    (query : String) (limit : Nat)
    (dayStr dateStr timeStr : String) (include_tip : Bool)
    (netQ : Net QuoteBody) (netT : Net TipBody) (netS : Net SearchBody)
    (netW : Net WisdomBody)
    (hconn : st.is_connected = true)
    (hmissQ : get_cache st now (quoteCacheKey category mood time_based) = none)
    (hmissT : get_cache st now "sleep_tip" = none)
    (hmissW : get_cache st now (wisdomCacheKey dayStr include_tip) = none)
    (hfQ : netQ.isFailure = true) (hfT : netT.isFailure = true)
    (hfS : netS.isFailure = true) (hfW : netW.isFailure = true) :
    get_inspirational_quote st now nowHM category mood time_based netQ
      = (get_offline_response "quote", st) ∧
    get_sleep_hygiene_tip st now netT = (get_offline_response "tip", st) ∧
    search_quotes st query limit netS = (get_offline_response "search", st) ∧
    get_daily_wisdom st now dayStr dateStr timeStr include_tip netW
      = (get_offline_response "wisdom", st) ∧
    (get_offline_response "quote").success = false ∧
    (get_offline_response "tip").success = false ∧
    (get_offline_response "search").success = false ∧
    (get_offline_response "wisdom").success = false :=
  ⟨quote_run_failure st now nowHM category mood time_based netQ hconn hmissQ hfQ,
   tip_run_failure st now netT hconn hmissT hfT,
   search_run_failure st query limit netS hconn hfS,
   wisdom_run_failure st now dayStr dateStr timeStr include_tip netW hconn hmissW hfW,
   by decide, by decide, by decide, by decide⟩

/-- Witness for C6, covering all three failure modes: a transport
exception (quote), an HTTP 500 (tip), a 200 response with a malformed
payload (search), and an HTTP 404 (wisdom). -/
theorem C6_failures_swallowed_nothing_cached_witness :
    get_inspirational_quote demoState 7 "08:15" (some "motivation") none false .exn
      = (get_offline_response "quote", demoState) ∧
    get_sleep_hygiene_tip demoState 7 (.response 500 none)
      = (get_offline_response "tip", demoState) ∧
    search_quotes demoState "noche" 3 (.response 200 none)
      = (get_offline_response "search", demoState) ∧
    get_daily_wisdom demoState 7 "2026-10-12" "domingo" "08:15" false
        (.response 404 (some demoWisdomA))
      = (get_offline_response "wisdom", demoState) := by
  have h := C6_failures_swallowed_nothing_cached demoState 7 "08:15"
    (some "motivation") none false "noche" 3 "2026-10-12" "domingo" "08:15" false
    .exn (.response 500 none) (.response 200 none) (.response 404 (some demoWisdomA))
    rfl rfl rfl rfl rfl rfl rfl rfl
  exact ⟨h.1, h.2.1, h.2.2.1, h.2.2.2.1⟩

/-- C7: when the client is connected and the server answers a search with
status 200 and an empty result list, `search_quotes` returns
`success := true` with the empty result list and the "no matches"
message — not the offline failure payload — and leaves the state
unchanged. -/
theorem C7_empty_search_is_success
    (st : ClientState) (query : String) (limit : Nat) (tf : Nat) (ts : String)
    (hconn : st.is_connected = true) :
    (search_quotes st query limit (.response 200 (some ⟨[], tf, ts⟩))).1.success = true ∧
    (search_quotes st query limit (.response 200 (some ⟨[], tf, ts⟩))).1.results = some [] ∧
    (search_quotes st query limit (.response 200 (some ⟨[], tf, ts⟩))).1.message
      = emptySearchMessage query ∧
    (search_quotes st query limit (.response 200 (some ⟨[], tf, ts⟩))).1.source
      = "remote_server" ∧
    (search_quotes st query limit (.response 200 (some ⟨[], tf, ts⟩))).1
      ≠ get_offline_response "search" ∧
    (search_quotes st query limit (.response 200 (some ⟨[], tf, ts⟩))).2 = st := by
  rw [search_run_success st query limit ⟨[], tf, ts⟩ hconn]
  refine ⟨rfl, rfl, rfl, rfl, ?_, rfl⟩
  intro h
  have h2 : (get_offline_response "search").success = false := by decide
  rw [← h] at h2
  simp [searchSuccessResult] at h2

/-- Witness for C7 at a concrete query. -/
theorem C7_empty_search_is_success_witness :
    (search_quotes demoState "zzzz" 5 (.response 200 (some ⟨[], 0, "ts"⟩))).1.success = true ∧
    (search_quotes demoState "zzzz" 5 (.response 200 (some ⟨[], 0, "ts"⟩))).1.message
      = emptySearchMessage "zzzz" :=
  ⟨(C7_empty_search_is_success demoState "zzzz" 5 0 "ts" rfl).1,
   (C7_empty_search_is_success demoState "zzzz" 5 0 "ts" rfl).2.2.1⟩

/-- C8: for every combination of the recognized filters (`category`,
`time_of_day`, `mood`), `get_random_quote` on a non-empty database always
returns a quote (never errors): a member of the filtered subset when that
subset is non-empty, and a member of the full unfiltered set when the
filters match zero quotes. -/
theorem C8_filtered_random_or_fallback
    (quotes : List SleepQuote) (category time_of_day mood : Option String)
    (k : Nat) (hne : quotes ≠ []) :
    ∃ q, get_random_quote quotes category time_of_day mood k = some q ∧
      (applyFilters quotes category time_of_day mood ≠ [] →
        q ∈ applyFilters quotes category time_of_day mood) ∧
      (applyFilters quotes category time_of_day mood = [] → q ∈ quotes) := by
  by_cases hf : (applyFilters quotes category time_of_day mood).isEmpty = true
  · have hfe : applyFilters quotes category time_of_day mood = [] := by
      simpa using hf
    rcases randomChoice_mem quotes k hne with ⟨a, ha, hmem⟩
    refine ⟨a, ?_, fun hc => absurd hfe hc, fun _ => hmem⟩
    unfold get_random_quote
    simp only [hf, if_true]
    exact ha
  · have hfe : applyFilters quotes category time_of_day mood ≠ [] := by
      simpa using hf
    rcases randomChoice_mem (applyFilters quotes category time_of_day mood) k hfe
      with ⟨a, ha, hmem⟩
    refine ⟨a, ?_, fun _ => hmem, fun hc => absurd hc hfe⟩
    unfold get_random_quote
    simp only [hf, if_false, Bool.false_eq_true]
    exact ha

/-- Witness for C8: on the real fifteen-record database, a
`category = "techniques"` filter yields a quote from that category, and a
filter matching nothing still yields some quote from the full set. -/
theorem C8_filtered_random_or_fallback_witness :
    (∃ q, get_random_quote initialize_quotes (some "techniques") none none 7 = some q ∧
      (applyFilters initialize_quotes (some "techniques") none none ≠ [] →
        q ∈ applyFilters initialize_quotes (some "techniques") none none) ∧
      (applyFilters initialize_quotes (some "techniques") none none = [] →
        q ∈ initialize_quotes)) ∧
    (∃ q, get_random_quote initialize_quotes (some "no_such_category") none none 7
        = some q ∧
      (applyFilters initialize_quotes (some "no_such_category") none none ≠ [] →
        q ∈ applyFilters initialize_quotes (some "no_such_category") none none) ∧
      (applyFilters initialize_quotes (some "no_such_category") none none = [] →
        q ∈ initialize_quotes)) :=
  ⟨C8_filtered_random_or_fallback initialize_quotes (some "techniques") none none 7
      (by decide),
   C8_filtered_random_or_fallback initialize_quotes (some "no_such_category") none
      none 7 (by decide)⟩

/-- C10: the hour partition of the provider's time-based selection
(`get_quote_by_time`, used by the `time_based` quote query and by daily
wisdom): hours 6-17 select `"morning"` (so "morning" quotes are served
for the whole twelve-hour daytime window, afternoon included), hours
18-21 select `"evening"`, and all other hours select `"night"`. -/
theorem C10_time_partition (hour k : Nat) (quotes : List SleepQuote) :
    (6 ≤ hour → hour < 18 →
      timeFilterFor hour = "morning" ∧
      get_quote_by_time quotes hour k
        = get_random_quote quotes none (some "morning") none k) ∧
    (18 ≤ hour → hour < 22 →
      timeFilterFor hour = "evening" ∧
      get_quote_by_time quotes hour k
        = get_random_quote quotes none (some "evening") none k) ∧
    (hour < 6 ∨ 22 ≤ hour →
      timeFilterFor hour = "night" ∧
      get_quote_by_time quotes hour k
        = get_random_quote quotes none (some "night") none k) := by
  unfold get_quote_by_time
  refine ⟨fun h1 h2 => ?_, fun h1 h2 => ?_, fun h1 => ?_⟩
  · have ht : timeFilterFor hour = "morning" := by
      unfold timeFilterFor
      rw [if_pos ⟨h1, h2⟩]
    exact ⟨ht, by rw [ht]⟩
  · have ht : timeFilterFor hour = "evening" := by
      unfold timeFilterFor
      rw [if_neg (by omega), if_pos ⟨h1, h2⟩]
    exact ⟨ht, by rw [ht]⟩
  · have ht : timeFilterFor hour = "night" := by
      unfold timeFilterFor
      rw [if_neg (by omega), if_neg (by omega)]
    exact ⟨ht, by rw [ht]⟩

/-- Witness for C10: 15:00 (mid-afternoon) is served "morning" quotes,
20:00 "evening", 23:00 "night". -/
theorem C10_time_partition_witness :
    timeFilterFor 15 = "morning" ∧ timeFilterFor 20 = "evening" ∧
    timeFilterFor 23 = "night" :=
  ⟨((C10_time_partition 15 0 []).1 (by decide) (by decide)).1,
   ((C10_time_partition 20 0 []).2.1 (by decide) (by decide)).1,
   ((C10_time_partition 23 0 []).2.2 (Or.inr (by decide))).1⟩

/-- Counterexample to C1 as stated: `search_quotes` is one of the four
query kinds, yet on a connected client a recognized-success search stores
NOTHING in the cache (the cache stays empty), and a second identical call
within any TTL window is not a cache hit: it re-issues the request and
returns the server's new answer. -/
theorem C1_search_never_cached_counterexample :
    (search_quotes demoState "sueño" 5
        (.response 200 (some ⟨[demoQuoteA], 1, "t1"⟩))).1.success = true ∧
    (search_quotes demoState "sueño" 5
        (.response 200 (some ⟨[demoQuoteA], 1, "t1"⟩))).2.cache = [] ∧
    (search_quotes
        (search_quotes demoState "sueño" 5
          (.response 200 (some ⟨[demoQuoteA], 1, "t1"⟩))).2
        "sueño" 5 (.response 200 (some ⟨[demoQuoteB], 1, "t2"⟩))).1.results
      = some [demoQuoteB] ∧
    demoQuoteA ≠ demoQuoteB :=
  ⟨rfl, rfl, rfl, by decide⟩

/-- C1 (amended): for the quote, tip and daily-wisdom kinds, when the
client is connected, the cache misses and the remote request returns the
recognized success status, the parsed-and-formatted result is stored under
the kind's derived cache key with the current timestamp before being
returned; `search_quotes`, by contrast, performs no caching at all and
leaves the state unchanged on every path. -/
theorem C1_store_on_success_amended
    (st : ClientState) (now : Nat) (nowHM : String)
    (category mood : Option String) (time_based : Bool) (dataQ : QuoteBody)
    (dataT : TipBody) (dayStr dateStr timeStr : String) (include_tip : Bool)
    (dataW : WisdomBody) (query : String) (limit : Nat) (netS : Net SearchBody)
    (hconn : st.is_connected = true)
    (hmissQ : get_cache st now (quoteCacheKey category mood time_based) = none)
    (hmissT : get_cache st now "sleep_tip" = none)
    (hmissW : get_cache st now (wisdomCacheKey dayStr include_tip) = none) :
    cacheLookup (get_inspirational_quote st now nowHM category mood time_based
        (.response 200 (some dataQ))).2.cache
        (quoteCacheKey category mood time_based)
      = some ⟨(get_inspirational_quote st now nowHM category mood time_based
          (.response 200 (some dataQ))).1, now⟩ ∧
    (get_inspirational_quote st now nowHM category mood time_based
        (.response 200 (some dataQ))).1.success = true ∧
    cacheLookup (get_sleep_hygiene_tip st now
        (.response 200 (some dataT))).2.cache "sleep_tip"
      = some ⟨(get_sleep_hygiene_tip st now (.response 200 (some dataT))).1, now⟩ ∧
    (get_sleep_hygiene_tip st now (.response 200 (some dataT))).1.success = true ∧
    cacheLookup (get_daily_wisdom st now dayStr dateStr timeStr include_tip
        (.response 200 (some dataW))).2.cache (wisdomCacheKey dayStr include_tip)
      = some ⟨(get_daily_wisdom st now dayStr dateStr timeStr include_tip
          (.response 200 (some dataW))).1, now⟩ ∧
    (get_daily_wisdom st now dayStr dateStr timeStr include_tip
        (.response 200 (some dataW))).1.success = true ∧
    (search_quotes st query limit netS).2 = st := by
  rw [quote_run_success st now nowHM category mood time_based dataQ hconn hmissQ,
      tip_run_success st now dataT hconn hmissT,
      wisdom_run_success st now dayStr dateStr timeStr include_tip dataW hconn hmissW]
  refine ⟨?_, rfl, ?_, rfl, ?_, rfl, search_run_state_unchanged st query limit netS⟩
  · exact set_cache_lookup_self st now _ _
  · exact set_cache_lookup_self st now _ _
  · exact set_cache_lookup_self { st with cache_ttl := 3600 } now _ _

/-- Witness for the amended C1 at a concrete connected client. -/
theorem C1_store_on_success_amended_witness :
    cacheLookup (get_inspirational_quote demoState 0 "22:00" none none false
        (.response 200 (some ⟨demoQuoteA, "ts"⟩))).2.cache
        (quoteCacheKey none none false)
      = some ⟨(get_inspirational_quote demoState 0 "22:00" none none false
          (.response 200 (some ⟨demoQuoteA, "ts"⟩))).1, 0⟩ :=
  (C1_store_on_success_amended demoState 0 "22:00" none none false
      ⟨demoQuoteA, "ts"⟩ ⟨demoQuoteA, "ts"⟩ "2026-10-12" "domingo" "10:00" true
      demoWisdomA "paz" 5 .exn rfl rfl rfl rfl).1

/-- Counterexample to C2 as stated: in the default configuration the
preferred URL equals the first fallback URL, so the probe sequence
`[server_url] + fallback_urls` contains it twice; when it is unhealthy
and a later candidate is healthy, discovery probes that one URL twice
within the single pass (while still binding to the first healthy URL). -/
theorem C2_duplicate_probe_counterexample :
    ((connect_scan
        ((initClient none).server_url :: (initClient none).fallback_urls)
        (fun u => u == "https://sleep-quotes-mcp.railway.app")).2).count
        "https://sleep-quotes-mcp.onrender.com" = 2 ∧
    (connect_scan ((initClient none).server_url :: (initClient none).fallback_urls)
        (fun u => u == "https://sleep-quotes-mcp.railway.app")).1
      = some "https://sleep-quotes-mcp.railway.app" :=
  ⟨rfl, rfl⟩

/-- C2 (amended): discovery scans the sequence `server_url ::
fallback_urls` in order and binds to the first healthy entry; the probe
trace is exactly the unhealthy prefix followed by the first healthy
candidate, so each sequence POSITION is probed exactly once, and when the
candidate URLs are pairwise distinct no URL is probed twice.  (In the
default configuration `server_url` duplicates the first fallback URL, so
that URL is probed twice while unhealthy — see the counterexample.) -/
theorem C2_first_healthy_bound_probes_once
    (urls : List String) (healthy : String → Bool) (st : ClientState) :
    (connect_scan urls healthy).1 = urls.find? healthy ∧
    (connect_scan urls healthy).2
      = urls.takeWhile (fun u => !healthy u)
          ++ ((urls.dropWhile (fun u => !healthy u)).take 1) ∧
    (urls.Nodup → (connect_scan urls healthy).2.Nodup) ∧
    (∀ u, (st.server_url :: st.fallback_urls).find? healthy = some u →
      test_connection st healthy
        = (true, { st with server_url := u, is_connected := true })) := by
  refine ⟨connect_scan_fst urls healthy, connect_scan_snd urls healthy, ?_, ?_⟩
  · intro hnd
    exact List.Nodup.sublist (connect_scan_probes_sublist urls healthy) hnd
  · intro u hu
    have hfst : (connect_scan (st.server_url :: st.fallback_urls) healthy).1
        = some u := by
      rw [connect_scan_fst]
      exact hu
    have hpair : connect_scan (st.server_url :: st.fallback_urls) healthy
        = (some u, (connect_scan (st.server_url :: st.fallback_urls) healthy).2) := by
      rw [← hfst]
    unfold test_connection
    rw [hpair]

/-- Witness for the amended C2: binding to a concrete healthy candidate,
and a duplicate-free candidate list whose probe trace is duplicate-free. -/
theorem C2_first_healthy_bound_probes_once_witness :
    test_connection demoState (fun u => u == "https://sleep-quotes-mcp.fly.dev")
      = (true, { demoState with
                 server_url := "https://sleep-quotes-mcp.fly.dev"
                 is_connected := true }) ∧
    ((connect_scan ["https://sleep-quotes-mcp.fly.dev", "http://localhost:8000"]
        (fun u => u == "http://localhost:8000")).2).Nodup :=
  ⟨(C2_first_healthy_bound_probes_once
      (demoState.server_url :: demoState.fallback_urls)
      (fun u => u == "https://sleep-quotes-mcp.fly.dev") demoState).2.2.2
      "https://sleep-quotes-mcp.fly.dev" rfl,
   (C2_first_healthy_bound_probes_once
      ["https://sleep-quotes-mcp.fly.dev", "http://localhost:8000"]
      (fun u => u == "http://localhost:8000") demoState).2.2.1 (by decide)⟩

/-- C3 evaluated at its failing input (code bug): a daily-wisdom result is
cached at time 0 under the widened TTL, but the override leaves no trace:
after the call `cache_ttl` is back to 300 and the entry carries only its
timestamp, so `_is_cache_valid` compares the age against the restored
normal TTL.  Re-queried the same calendar day at age 1000 s (normal TTL
300 ≤ 1000 < widened TTL 3600) the entry is already a MISS, and the
client issues a fresh network request and returns the server's new data —
where the claim (and the code's own comments, `válido por un día` /
`1 hora para sabiduría diaria`) promise a cache hit. -/
theorem C3_ttl_override_ineffective :
    (get_daily_wisdom demoState 0 "2026-10-12" "domingo" "10:00" true
        (.response 200 (some demoWisdomA))).2.cache_ttl = 300 ∧
    cacheLookup (get_daily_wisdom demoState 0 "2026-10-12" "domingo" "10:00" true
        (.response 200 (some demoWisdomA))).2.cache
        (wisdomCacheKey "2026-10-12" true)
      = some ⟨(get_daily_wisdom demoState 0 "2026-10-12" "domingo" "10:00" true
          (.response 200 (some demoWisdomA))).1, 0⟩ ∧
    is_cache_valid (get_daily_wisdom demoState 0 "2026-10-12" "domingo" "10:00" true
        (.response 200 (some demoWisdomA))).2 1000
        (wisdomCacheKey "2026-10-12" true) = false ∧
    (get_daily_wisdom (get_daily_wisdom demoState 0 "2026-10-12" "domingo" "10:00"
          true (.response 200 (some demoWisdomA))).2 1000 "2026-10-12" "domingo"
        "14:00" true (.response 200 (some demoWisdomB))).1.daily_quote
      = some demoQuoteB :=
  ⟨rfl, rfl, rfl, rfl⟩

/-- Counterexample to C4 as stated: search (one of the query kinds) is
uncached, so two identical search queries (same query string, same limit)
issued back-to-back return whatever the server answers each time — the
second call does NOT return the identical first result when the endpoint
returns different data. -/
theorem C4_search_not_idempotent_counterexample :
    (search_quotes demoState "descanso" 5
        (.response 200 (some ⟨[demoQuoteA], 1, "t1"⟩))).1.results
      = some [demoQuoteA] ∧
    (search_quotes (search_quotes demoState "descanso" 5
          (.response 200 (some ⟨[demoQuoteA], 1, "t1"⟩))).2 "descanso" 5
        (.response 200 (some ⟨[demoQuoteB], 1, "t2"⟩))).1.results
      = some [demoQuoteB] ∧
    ([demoQuoteA] : List RemoteQuote) ≠ [demoQuoteB] :=
  ⟨rfl, rfl, by decide⟩

/-- C4 (amended): for the three cached kinds (quote, tip, daily-wisdom),
two identical queries within the TTL window return the identical first
result on both calls: the second call equals the first call's entire
output (same `Result`, same state), REGARDLESS of what the remote
endpoint would answer the second time — no re-validation against the
server.  Search is excluded: it is uncached (see the counterexample). -/
theorem C4_cached_idempotence_amended
    (st : ClientState) (t0 t1 : Nat) (nowHM1 nowHM2 : String)
    (category mood : Option String) (time_based : Bool)
    (dataQ : QuoteBody) (netQ2 : Net QuoteBody)
    (dataT : TipBody) (netT2 : Net TipBody)
    (dayStr dateStr1 timeStr1 dateStr2 timeStr2 : String) (include_tip : Bool)
    (dataW : WisdomBody) (netW2 : Net WisdomBody)
    (hconn : st.is_connected = true) (httl : st.cache_ttl = 300)
    (hdt : t1 - t0 < 300)
    (hmissQ : get_cache st t0 (quoteCacheKey category mood time_based) = none)
    (hmissT : get_cache st t0 "sleep_tip" = none)
    (hmissW : get_cache st t0 (wisdomCacheKey dayStr include_tip) = none) :
    get_inspirational_quote
        (get_inspirational_quote st t0 nowHM1 category mood time_based
          (.response 200 (some dataQ))).2 t1 nowHM2 category mood time_based netQ2
      = get_inspirational_quote st t0 nowHM1 category mood time_based
          (.response 200 (some dataQ)) ∧
    get_sleep_hygiene_tip
        (get_sleep_hygiene_tip st t0 (.response 200 (some dataT))).2 t1 netT2
      = get_sleep_hygiene_tip st t0 (.response 200 (some dataT)) ∧
    get_daily_wisdom
        (get_daily_wisdom st t0 dayStr dateStr1 timeStr1 include_tip
          (.response 200 (some dataW))).2 t1 dayStr dateStr2 timeStr2 include_tip
        netW2
      = get_daily_wisdom st t0 dayStr dateStr1 timeStr1 include_tip
          (.response 200 (some dataW)) := by
  refine ⟨?_, ?_, ?_⟩
  · rw [quote_run_success st t0 nowHM1 category mood time_based dataQ hconn hmissQ]
    have hhit : get_cache
        (set_cache st t0 (quoteCacheKey category mood time_based)
          (quoteSuccessResult dataQ nowHM1)) t1
        (quoteCacheKey category mood time_based)
        = some (quoteSuccessResult dataQ nowHM1) := by
      apply get_cache_hit_of _ t1 _ ⟨quoteSuccessResult dataQ nowHM1, t0⟩
        (set_cache_lookup_self st t0 _ _)
      show t1 - t0 < st.cache_ttl
      rw [httl]
      exact hdt
    exact quote_run_hit _ t1 nowHM2 category mood time_based netQ2
      (quoteSuccessResult dataQ nowHM1) hconn hhit
  · rw [tip_run_success st t0 dataT hconn hmissT]
    have hhit : get_cache (set_cache st t0 "sleep_tip" (tipSuccessResult dataT)) t1
        "sleep_tip" = some (tipSuccessResult dataT) := by
      apply get_cache_hit_of _ t1 _ ⟨tipSuccessResult dataT, t0⟩
        (set_cache_lookup_self st t0 _ _)
      show t1 - t0 < st.cache_ttl
      rw [httl]
      exact hdt
    exact tip_run_hit _ t1 netT2 (tipSuccessResult dataT) hconn hhit
  · rw [wisdom_run_success st t0 dayStr dateStr1 timeStr1 include_tip dataW hconn
        hmissW]
    have hl : cacheLookup
        ({ set_cache { st with cache_ttl := 3600 } t0
             (wisdomCacheKey dayStr include_tip)
             (wisdomSuccessResult dataW dateStr1 timeStr1 include_tip) with
           cache_ttl := 300 } : ClientState).cache
        (wisdomCacheKey dayStr include_tip)
        = some ⟨wisdomSuccessResult dataW dateStr1 timeStr1 include_tip, t0⟩ :=
      set_cache_lookup_self { st with cache_ttl := 3600 } t0 _ _
    have hhit := get_cache_hit_of _ t1 _
      ⟨wisdomSuccessResult dataW dateStr1 timeStr1 include_tip, t0⟩ hl hdt
    exact wisdom_run_hit _ t1 dayStr dateStr2 timeStr2 include_tip netW2
      (wisdomSuccessResult dataW dateStr1 timeStr1 include_tip) hconn hhit

/-- Witness for the amended C4: a second identical quote query 100 s after
the first, against a server that would now answer a DIFFERENT quote,
still returns the first call's result and state. -/
theorem C4_cached_idempotence_amended_witness :
    get_inspirational_quote
        (get_inspirational_quote demoState 0 "22:00" none none false
          (.response 200 (some ⟨demoQuoteA, "ts"⟩))).2 100 "22:01" none none false
        (.response 200 (some ⟨demoQuoteB, "ts2"⟩))
      = get_inspirational_quote demoState 0 "22:00" none none false
          (.response 200 (some ⟨demoQuoteA, "ts"⟩)) :=
  (C4_cached_idempotence_amended demoState 0 100 "22:00" "22:01" none none false
      ⟨demoQuoteA, "ts"⟩ (.response 200 (some ⟨demoQuoteB, "ts2"⟩))
      ⟨demoQuoteA, "ts"⟩ .exn "2026-10-12" "d1" "t1" "d2" "t2" true demoWisdomA .exn
      rfl rfl (by decide) rfl rfl rfl).1

end SleepQuotes
